import Mathlib

/-!
Verification of the scheduling / check-execution core of the
`website_monitor` repository (src/website_monitor/website_monitor.py,
src/website_monitor/db_utils.py), as a shallow embedding in Lean 4.

Modelling conventions:
* Python integer candidates (CLI override, stored `check_period` value) are
  modelled as `Option Int`: `some i` is a value on which Python's `int()`
  succeeds and yields `i`; `none` is a value on which `int()` raises
  (a non-integer candidate).
* A JSON configuration document is modelled by `ConfigSource`; a target
  entry (a JSON object) by `EntryVal`, where `url = none` models the `url`
  key being absent from the object.
* Wall-clock times and fractional seconds are modelled by `ℚ`.
* Uncaught Python exceptions are modelled by explicit error values
  (`Except` results, or an `Option PyExc` component).
-/

/-- `DEFAULT_CHECK_PERIOD = 3600` from website_monitor.py. -/
def DEFAULT_CHECK_PERIOD : Int := 3600

/-- One target entry of the JSON configuration mapping (a JSON object).
`url = none` models an object with no `url` key; `content = none` models an
object with no `content` key. -/
structure EntryVal where
  url : Option String
  content : Option String
deriving DecidableEq, Repr

/-- The raw JSON configuration mapping handed to
`WebMonitorConfigObject.set_check_period_and_web_data`: the optional
top-level `check_period` key (outer `Option`: key present; inner `Option`:
`int()`-convertible, see the modelling conventions) and the target entries
in insertion order. -/
structure RawConfigs where
  check_period : Option (Option Int)
  entries : List (String × EntryVal)
deriving DecidableEq, Repr

/-- The data the constructed `WebMonitorConfigObject` holds: the resolved
`self.check_period` and the extracted `self.websites`. -/
structure ConfigSnapshot where
  check_period : Int
  websites : List (String × EntryVal)
deriving DecidableEq, Repr

/-- Result of `set_check_period_and_web_data`: the constructed snapshot
together with the state of the caller's `configs` mapping after the call
(the call executes `configs.pop('check_period', ...)` in every branch, a
mutation of its argument). -/
structure SetResult where
  snapshot : ConfigSnapshot
  configsAfter : RawConfigs
deriving DecidableEq, Repr

/-- `configs.pop('check_period', None)` as seen through the `int()` view of
the value: an absent key behaves like a non-convertible value (`int(None)`
raises, and `pop` with default `0` yields the same `0` that a failed
conversion does). -/
def stored_int : Option (Option Int) → Option Int
  | none => none
  | some v => v

/-- `try: x = int(x) except: x = 0` from the source. -/
def int_or_zero : Option Int → Int
  | none => 0
  | some i => i

namespace WebMonitorConfigObject

/-- `WebMonitorConfigObject.is_positive_int`: `try: i = int(i) except:
return False; return i > 0`.  `none` (int() raises, e.g. on `None`)
yields `False`. -/
def is_positive_int : Option Int → Bool
  | none => false
  | some i => decide (0 < i)

/-- `WebMonitorConfigObject.extract_websites`: copies the mapping and pops
every entry whose object lacks a `url` key, so the surviving entries are
exactly those with a `url` key, in order. -/
def extract_websites (configs : List (String × EntryVal)) : List (String × EntryVal) :=
  configs.filter (fun kv => kv.2.url.isSome)

/-- The caller's mapping after `configs.pop('check_period', ...)`:
the `check_period` key is removed, the target entries are untouched. -/
def pop_check_period (configs : RawConfigs) : RawConfigs :=
  { check_period := none, entries := configs.entries }

/-- `WebMonitorConfigObject.set_check_period_and_web_data`, mirroring the
source's branch structure:
1. `provided_check_period` is coerced with `try: int(...) except: 0`.
2. If positive, `check_period` is popped from the mapping into `tmp`; with
   `defer_to_configs` set and `is_positive_int(tmp)`, the stored value wins,
   otherwise the provided one does.
3. Otherwise `check_period` is popped with default `0` and coerced; if
   positive it wins, else the default `3600` is used.
`extract_websites` runs on the mapping after the pop in every branch (the
pop only removes the `check_period` key, so extraction sees exactly the
target entries). -/
def set_check_period_and_web_data (configs : RawConfigs)
    (provided_check_period : Option Int) (defer_to_configs : Bool) : SetResult :=
  if 0 < int_or_zero provided_check_period then
    { snapshot :=
        { check_period :=
            if defer_to_configs && is_positive_int (stored_int configs.check_period) then
              int_or_zero (stored_int configs.check_period)
            else
              int_or_zero provided_check_period,
          websites := extract_websites configs.entries },
      configsAfter := pop_check_period configs }
  else if 0 < int_or_zero (stored_int configs.check_period) then
    { snapshot :=
        { check_period := int_or_zero (stored_int configs.check_period),
          websites := extract_websites configs.entries },
      configsAfter := pop_check_period configs }
  else
    { snapshot :=
        { check_period := DEFAULT_CHECK_PERIOD,
          websites := extract_websites configs.entries },
      configsAfter := pop_check_period configs }

end WebMonitorConfigObject

/-- The configuration source seen by `WebMonitorConfigObject.__init__`:
the file can be missing (`open` raises `FileNotFoundError`), unparsable as
JSON — including an empty file — (`json.load` raises `JSONDecodeError`), a
JSON document that is not a mapping (the subsequent `configs.pop` attribute
access raises), or a mapping of target entries. -/
inductive ConfigSource where
  | missing
  | unparsable
  | notMapping
  | mapping (configs : RawConfigs)
deriving DecidableEq, Repr

/-- The exceptions that can escape `WebMonitorConfigObject.__init__`. -/
inductive LoadExc where
  | fileNotFoundError
  | jsonDecodeError
  | attributeError
deriving DecidableEq, Repr

namespace WebMonitorConfigObject

/-- `WebMonitorConfigObject.__init__`: open the source, `json.load` it, and
run `set_check_period_and_web_data`.  No exception class of the repository's
own (`ConfigFileEmpty`, `ConfigFileInvalid`) is ever raised; the failures
are the built-in exceptions of `open`/`json.load`/attribute access. -/
def load (src : ConfigSource) (check_period : Option Int)
    (defer_to_configs : Bool) : Except LoadExc ConfigSnapshot :=
  match src with
  | .missing => .error .fileNotFoundError
  | .unparsable => .error .jsonDecodeError
  | .notMapping => .error .attributeError
  | .mapping configs =>
      .ok (set_check_period_and_web_data configs check_period defer_to_configs).snapshot

end WebMonitorConfigObject

/-- A candidate kept only when positive (spec-side helper). -/
def pos_candidate : Option Int → Option Int
  | none => none
  | some i => if 0 < i then some i else none

/-- Modelled from the spec: the check-period precedence of §3/§4.1 stated
as a pure function over the two optional integer candidates —
`defer_to_source=false`: override if positive, else stored if positive,
else default 3600; `defer_to_source=true`: stored if positive, else
override if positive, else default.  Spec-side definition, written for
comparison with `set_check_period_and_web_data`. -/
def spec_resolved_period (override stored : Option Int)
    (defer_to_source : Bool) : Int :=
  if defer_to_source then
    match pos_candidate stored with
    | some v => v
    | none =>
      match pos_candidate override with
      | some v => v
      | none => 3600
  else
    match pos_candidate override with
    | some v => v
    | none =>
      match pos_candidate stored with
      | some v => v
      | none => 3600

namespace WebMonitorConfigObject

/-- Helper: the resolved check period is always positive. -/
theorem set_check_period_pos (configs : RawConfigs)
    (o : Option Int) (d : Bool) :
    0 < (set_check_period_and_web_data configs o d).snapshot.check_period := by
  rcases configs with ⟨cp, es⟩
  rcases o with _ | p <;> rcases cp with _ | (_ | v) <;>
    simp only [set_check_period_and_web_data, stored_int, int_or_zero,
      is_positive_int, DEFAULT_CHECK_PERIOD, Bool.and_eq_true,
      decide_eq_true_eq, Bool.and_false, Bool.and_true] <;>
    split_ifs <;>
    simp_all

end WebMonitorConfigObject

/-- C4: for every triple (override, stored, defer_to_source) the
check period resolved by `set_check_period_and_web_data` equals the spec's
precedence function `spec_resolved_period` (override first unless the
caller defers to the source, zero / negative / non-integer candidates
treated as absent, default 3600) and is always a positive integer. -/
theorem c4_check_period_precedence (configs : RawConfigs)
    (o : Option Int) (d : Bool) :
    (WebMonitorConfigObject.set_check_period_and_web_data configs o d).snapshot.check_period
        = spec_resolved_period o (stored_int configs.check_period) d
      ∧ 0 < (WebMonitorConfigObject.set_check_period_and_web_data configs o d).snapshot.check_period := by
  refine ⟨?_, WebMonitorConfigObject.set_check_period_pos configs o d⟩
  rcases configs with ⟨cp, es⟩
  rcases o with _ | p <;> rcases cp with _ | (_ | v) <;> rcases d with _ | _ <;>
    simp only [WebMonitorConfigObject.set_check_period_and_web_data,
      spec_resolved_period, pos_candidate, stored_int, int_or_zero,
      WebMonitorConfigObject.is_positive_int, DEFAULT_CHECK_PERIOD,
      Bool.false_and, Bool.true_and, Bool.and_eq_true, decide_eq_true_eq] <;>
    split_ifs <;>
    simp_all

/-- C7: load failures are exactly the missing / unparsable (including
empty) / not-a-mapping sources: `WebMonitorConfigObject.load` returns an
error precisely for those sources and succeeds on every mapping of target
entries.  The spec's `ConfigSourceError` is the abstraction of the
`LoadExc` errors raised on these sources. -/
theorem c7_load_failures (src : ConfigSource) (o : Option Int) (d : Bool) :
    (∃ e, WebMonitorConfigObject.load src o d = Except.error e)
      ↔ (src = ConfigSource.missing ∨ src = ConfigSource.unparsable
          ∨ src = ConfigSource.notMapping) := by
  cases src <;> simp [WebMonitorConfigObject.load]

/-- C9 counterexample: on the mapping with a `check_period` entry of `30`
and one well-formed target, construction (with override `0`, no deferral)
leaves the caller's mapping different from what it was: the `check_period`
entry has been popped. -/
theorem c9_counterexample :
    (WebMonitorConfigObject.set_check_period_and_web_data
        { check_period := some (some 30),
          entries := [("a", { url := some "http://x", content := none })] }
        (some 0) false).configsAfter
      ≠ { check_period := some (some 30),
          entries := [("a", { url := some "http://x", content := none })] } := by
  decide

/-- C9 (amended): construction never mutates the target entries of the
caller's mapping — extraction operates on an independent copy — but it
always removes the `check_period` key from the caller's mapping
(`configs.pop('check_period', ...)` executes in every branch of
`set_check_period_and_web_data`). -/
theorem c9_entries_preserved_check_period_popped (configs : RawConfigs)
    (o : Option Int) (d : Bool) :
    (WebMonitorConfigObject.set_check_period_and_web_data configs o d).configsAfter
      = { check_period := none, entries := configs.entries } := by
  unfold WebMonitorConfigObject.set_check_period_and_web_data
  split_ifs <;> rfl

/-- C10: the snapshot's target mapping is exactly the input entries with a
`url` key, in order (entries lacking `url` are silently dropped, entries
having `url` all appear); and the spec's example — source
`{a: {url: http://x}, b: {}, check_period: 30}` loaded with override `0`
and no deferral — yields exactly the target set `{a}` and check period 30. -/
theorem c10_url_extraction :
    (∀ (configs : RawConfigs) (o : Option Int) (d : Bool),
        (WebMonitorConfigObject.set_check_period_and_web_data configs o d).snapshot.websites
          = configs.entries.filter (fun kv => kv.2.url.isSome))
      ∧ WebMonitorConfigObject.load
          (ConfigSource.mapping
            { check_period := some (some 30),
              entries := [("a", { url := some "http://x", content := none }),
                          ("b", { url := none, content := none })] })
          (some 0) false
        = Except.ok { check_period := 30,
                      websites := [("a", { url := some "http://x", content := none })] } := by
  constructor
  · intro configs o d
    unfold WebMonitorConfigObject.set_check_period_and_web_data
    split_ifs <;> rfl
  · rfl

/-- The uncaught Python exceptions of the check-execution path. -/
inductive PyExc where
  | attributeError
  | typeError
  | requirementsNotFulfilled
  | keyError
deriving DecidableEq, Repr

/-- One row handed to the database sink, mirroring the parameters of the
insert helper in db_utils.py: `(webname, url, request_time, status,
response_time, requirements, error)`. -/
structure SinkRecord where
  webname : Option String
  url : String
  request_time : ℚ
  status : Option Int
  response_time : Option ℚ
  requirements : Option Int
  error : Option String
deriving DecidableEq, Repr

/-- The module-level names defined by src/website_monitor/db_utils.py. -/
def db_utils_attrs : List String :=
  ["DB_NAME", "DB_TABLE_NAME", "get_connection", "create_tables",
   "insert_webcheck_record", "new_record", "modification", "redundant",
   "is_in_database", "insert_webcheck_config", "get_all_webcheck_records",
   "get_all_webcheck_configs"]

/-- The call `db_utils.record_insert(...)` as written in
website_monitor.py: an attribute lookup of the name `record_insert` on the
db_utils module, followed by the insert.  db_utils.py defines
`insert_webcheck_record`, not `record_insert`, so the lookup raises
`AttributeError`; had the lookup succeeded, the record would be handed to
the sink. -/
def db_utils_record_insert (r : SinkRecord) : Except PyExc (List SinkRecord) :=
  if db_utils_attrs.contains "record_insert" then Except.ok [r]
  else Except.error PyExc.attributeError

/-- A transport-level HTTP response: status code, elapsed time in
microseconds (`response.elapsed` is a timedelta with microsecond
resolution), and the body as decoded text (`.decode('utf-8', 'ignore')`
never fails, so the body is modelled as the decoded string). -/
structure Response where
  status_code : Int
  elapsed_us : Nat
  body : String
deriving DecidableEq, Repr

/-- Outcome of `requests.get(url)`: either a `RequestException`
(DNS / connection-refused / timeout failure) carrying its message, or a
received response whatever its status code. -/
inductive ProbeOutcome where
  | transportError (error_msg : String)
  | response (resp : Response)
deriving DecidableEq, Repr

namespace Monitor

/-- `Monitor.check_requirements`.  The regular-expression engine is
abstracted by the `search` oracle: `search pat text` models
`re.search(pat, text, re.IGNORECASE) is not None`.  The source calls
`reg_ex.search(content_requirements, response_content, reg_ex.IGNORECASE)`
before testing `not content_requirements`, so when the requirement is
absent (`None`) the call raises `TypeError` and the
`if not content_requirements` branch is unreachable; an empty requirement
string is falsy and yields `True`. -/
def check_requirements (search : String → String → Bool)
    (response_content : String) (content_requirements : Option String) :
    Except PyExc Bool :=
  match content_requirements with
  | none => Except.error PyExc.typeError
  | some pat =>
      if pat = "" || search pat response_content then Except.ok true
      else Except.error PyExc.requirementsNotFulfilled

/-- `Monitor.make_request`: on a `RequestException` the handler records the
error through `db_utils.record_insert` (which raises, see
`db_utils_record_insert`) and would return `None`; on a received response
it logs and returns the response.  The result pairs the optional response
with the records actually handed to the sink. -/
def make_request (outcome : ProbeOutcome) (url : String) (webname : String)
    (now : ℚ) : Except PyExc (Option Response × List SinkRecord) :=
  match outcome with
  | .transportError msg =>
      match db_utils_record_insert
          { webname := some webname, url := url, request_time := now,
            status := none, response_time := none, requirements := none,
            error := some msg } with
      | .ok rs => .ok (none, rs)
      | .error e => .error e
  | .response resp => .ok (some resp, [])

/-- `Monitor._perform_checks` for one target: request, early return on a
`None` response, compute `response.elapsed / timedelta(seconds=1)` as
fractional seconds, check requirements catching only
`RequirementsNotFulfilled`, and record the outcome (requirements flag 1 or
0) through `db_utils.record_insert`.  Returns the records handed to the
sink and the exception escaping the worker, if any. -/
def perform_checks (search : String → String → Bool) (outcome : ProbeOutcome)
    (url : String) (content_requirements : Option String) (webname : String)
    (now : ℚ) : List SinkRecord × Option PyExc :=
  match make_request outcome url webname now with
  | .error e => ([], some e)
  | .ok (none, recs) => (recs, none)
  | .ok (some resp, recs) =>
      let response_time : ℚ := (resp.elapsed_us : ℚ) / 1000000
      match check_requirements search resp.body content_requirements with
      | .error PyExc.requirementsNotFulfilled =>
          match db_utils_record_insert
              { webname := some webname, url := url, request_time := now,
                status := some resp.status_code,
                response_time := some response_time,
                requirements := some 0, error := none } with
          | .ok rs => (recs ++ rs, none)
          | .error e => (recs, some e)
      | .error e => (recs, some e)
      | .ok _ =>
          match db_utils_record_insert
              { webname := some webname, url := url, request_time := now,
                status := some resp.status_code,
                response_time := some response_time,
                requirements := some 1, error := none } with
          | .ok rs => (recs ++ rs, none)
          | .error e => (recs, some e)

/-- `Monitor._start_checks`: one worker per entry of `websites`, each
running `_perform_checks(web_data['url'], web_data.get('content', None),
webname)` (a missing `url` key would raise `KeyError`; extraction
guarantees it is present in a snapshot).  An exception escaping a worker is
confined to its thread (the join still succeeds), so the round always
completes and the per-target outcomes are collected in dispatch order. -/
def start_checks (search : String → String → Bool)
    (env : String → ProbeOutcome) (now : ℚ)
    (websites : List (String × EntryVal)) :
    List (List SinkRecord × Option PyExc) :=
  websites.map (fun kv =>
    match kv.2.url with
    | some u => perform_checks search (env kv.1) u kv.2.content kv.1 now
    | none => ([], some PyExc.keyError))

end Monitor

/-- All records handed to the result sink during one round, in dispatch
order. -/
def round_sink_records (search : String → String → Bool)
    (env : String → ProbeOutcome) (now : ℚ)
    (websites : List (String × EntryVal)) : List SinkRecord :=
  (Monitor.start_checks search env now websites).foldr
    (fun r acc => r.1 ++ acc) []

/-- C3: the claim fails on the code.  For a target whose content
requirement is absent, `check_requirements` raises `TypeError` — the
source evaluates `re.search(None, response_content, re.IGNORECASE)` before
the `not content_requirements` test — instead of treating the requirement
as always satisfied; this holds for every response body and any behaviour
of the regex engine. -/
theorem c3_absent_requirement_raises
    (search : String → String → Bool) (body : String) :
    Monitor.check_requirements search body none
      = Except.error PyExc.typeError := rfl

/-- C1: the claim fails on the code.  At a target (name `a`, url
`http://x`, content requirement `hello`) whose probe succeeds at transport
level (status 200, 123456 microseconds, matching body), the executor hands
nothing to the sink and the worker terminates with an uncaught
`AttributeError`: website_monitor.py calls `db_utils.record_insert`, a
name src/website_monitor/db_utils.py does not define. -/
theorem c1_executor_raises :
    Monitor.perform_checks (fun _ _ => true)
        (ProbeOutcome.response
          { status_code := 200, elapsed_us := 123456, body := "hello world" })
        "http://x" (some "hello") "a" 0
      = ([], some PyExc.attributeError) := rfl

/-- C2: the claim fails on the code.  A round over two targets — `a`
failing at transport level, `b` receiving a 200 response — hands 0 records
to the result sink, not 2: every recording call (`db_utils.record_insert`)
raises `AttributeError` inside its worker.  (The isolation half of the
claim does hold in the model: each failure is confined to its own worker
and the round completes.) -/
theorem c2_round_hands_zero_records :
    round_sink_records (fun _ _ => true)
        (fun name =>
          if name = "a" then ProbeOutcome.transportError "connection refused"
          else ProbeOutcome.response
            { status_code := 200, elapsed_us := 500000, body := "ok" }) 0
        [("a", { url := some "http://x", content := some "ok" }),
         ("b", { url := some "http://y", content := some "ok" })]
      = []
    ∧ ([("a", ({ url := some "http://x", content := some "ok" } : EntryVal)),
        ("b", { url := some "http://y", content := some "ok" })]).length = 2 :=
  ⟨rfl, rfl⟩

/-- C6: the claim fails on the code.  At a probe that succeeds at
transport level (status 301, elapsed 250000 microseconds), the executor
emits no result at all — the recording call `db_utils.record_insert`
raises `AttributeError` — so neither `http_status` nor
`response_time_seconds` is recorded anywhere. -/
theorem c6_success_emits_no_record :
    Monitor.perform_checks (fun _ _ => true)
        (ProbeOutcome.response
          { status_code := 301, elapsed_us := 250000, body := "abc" })
        "http://y" (some "a") "b" 5
      = ([], some PyExc.attributeError) := rfl

/-- The mutable state of a `Monitor` instance: the active configuration
snapshot `config_store` and the absolute anchor timestamp `next_call`. -/
structure MonState where
  config_store : ConfigSnapshot
  next_call : ℚ
deriving DecidableEq, Repr

namespace Monitor

/-- `Monitor.hot_load_config`: `self.config_store =
WebMonitorConfigObject(self.config_store.check_period, True)` — a reload
with the current period as override and deferral to the source.  If the
constructor raises, the assignment never executes and `config_store` keeps
its previous value; the exception propagates to the caller. -/
def hot_load_config (src : ConfigSource) (st : MonState) :
    Except LoadExc MonState :=
  match WebMonitorConfigObject.load src (some st.config_store.check_period) true with
  | .ok cfg => .ok { st with config_store := cfg }
  | .error e => .error e

/-- One pass of `Monitor.start_watch`, from its entry to the arming of the
next `threading.Timer`: hot-reload, run the round (`_start_checks`, whose
sink effects are modelled separately by `round_sink_records` and do not
feed back into scheduling), then `self.next_call +=
self.config_store.check_period` and arm a timer for
`self.next_call - time.time()`.  `completion_time` is the value of
`time.time()` when the timer is armed, i.e. after the round has run.  On a
reload failure the exception propagates before the round and before the
timer is armed: the pass produces no successor state and no timer. -/
def start_watch_iter (src : ConfigSource) (st : MonState)
    (completion_time : ℚ) : Except LoadExc (MonState × ℚ) :=
  match hot_load_config src st with
  | .error e => .error e
  | .ok st1 =>
      .ok ({ st1 with next_call := st1.next_call + (st1.config_store.check_period : ℚ) },
           st1.next_call + (st1.config_store.check_period : ℚ) - completion_time)

end Monitor

/-- C5: whenever a `start_watch` pass completes, the new anchor is the
previous anchor plus the (reloaded, current) check period — an additive
advance — and when the round overran the period (the completion time lies
beyond the previous anchor plus the period), the new anchor still differs
from completion time plus period. -/
theorem c5_drift_corrected_anchor (src : ConfigSource) (st : MonState)
    (t : ℚ) (st' : MonState) (delay : ℚ)
    (h : Monitor.start_watch_iter src st t = Except.ok (st', delay)) :
    st'.next_call = st.next_call + (st'.config_store.check_period : ℚ)
      ∧ (st.next_call + (st'.config_store.check_period : ℚ) < t →
          st'.next_call ≠ t + (st'.config_store.check_period : ℚ)) := by
  unfold Monitor.start_watch_iter Monitor.hot_load_config at h
  rcases hsrc : WebMonitorConfigObject.load src (some st.config_store.check_period) true with e | cfg
  · rw [hsrc] at h
    exact absurd h (by simp)
  · rw [hsrc] at h
    simp only [Except.ok.injEq, Prod.mk.injEq] at h
    obtain ⟨hst, _⟩ := h
    subst hst
    refine ⟨rfl, fun hover heq => ?_⟩
    have ht : st.next_call = t := by
      have := heq
      simp only at this
      linarith [this]
    rw [ht] at hover
    have hpos : (0 : ℚ) < (cfg.check_period : ℚ) := by
      rcases src with _ | _ | _ | configs <;> simp [WebMonitorConfigObject.load] at hsrc
      subst hsrc
      exact_mod_cast WebMonitorConfigObject.set_check_period_pos configs
        (some st.config_store.check_period) true
    linarith

/-- Witness for C5 at a concrete pass: source stores period 5, previous
anchor 100, completion at 200 (the round overran), so the new anchor is
105 = 100 + 5 and not 205. -/
theorem c5_drift_witness :
    ((⟨⟨5, []⟩, 105⟩ : MonState).next_call
        = (⟨⟨3600, []⟩, 100⟩ : MonState).next_call
          + (((⟨⟨5, []⟩, 105⟩ : MonState).config_store.check_period : Int) : ℚ))
      ∧ ((⟨⟨3600, []⟩, 100⟩ : MonState).next_call
            + (((⟨⟨5, []⟩, 105⟩ : MonState).config_store.check_period : Int) : ℚ) < 200 →
          (⟨⟨5, []⟩, 105⟩ : MonState).next_call
            ≠ 200 + (((⟨⟨5, []⟩, 105⟩ : MonState).config_store.check_period : Int) : ℚ)) :=
  c5_drift_corrected_anchor
    (ConfigSource.mapping { check_period := some (some 5), entries := [] })
    ⟨⟨3600, []⟩, 100⟩ 200 ⟨⟨5, []⟩, 105⟩ (-95)
    (by
      simp only [Monitor.start_watch_iter, Monitor.hot_load_config,
        WebMonitorConfigObject.load, WebMonitorConfigObject.set_check_period_and_web_data,
        stored_int, int_or_zero, WebMonitorConfigObject.is_positive_int,
        WebMonitorConfigObject.extract_websites, WebMonitorConfigObject.pop_check_period]
      norm_num)

/-- C8 counterexample: with the configuration source missing at reload
time, the `start_watch` pass does not arm a retry timer at all — it
terminates with the propagated `FileNotFoundError` before the round runs
and before `threading.Timer` is reached — contradicting the claim that the
loop retries the reload at the next anchor tick. -/
theorem c8_counterexample :
    Monitor.start_watch_iter ConfigSource.missing
        ⟨⟨60, [("a", { url := some "http://x", content := none })]⟩, 100⟩ 100
      = Except.error LoadExc.fileNotFoundError := rfl

/-- C8 (amended): if the reload at the start of a pass fails, the
previously active snapshot indeed remains authoritative (the assignment to
`config_store` never executes, so the caller's state is unchanged), but the
exception propagates out of `start_watch`: the round is skipped and no
timer is armed, so the loop stops instead of retrying at the next anchor
tick. -/
theorem c8_reload_failure_stops_loop (src : ConfigSource) (st : MonState)
    (t : ℚ) (e : LoadExc)
    (h : Monitor.hot_load_config src st = Except.error e) :
    Monitor.start_watch_iter src st t = Except.error e := by
  unfold Monitor.start_watch_iter
  rw [h]

/-- Witness for the amended C8 at a concrete input: an unparsable source
at reload time makes the pass itself fail with the same `JSONDecodeError`,
arming no timer. -/
theorem c8_reload_failure_witness :
    Monitor.start_watch_iter ConfigSource.unparsable ⟨⟨60, []⟩, 0⟩ 7
      = Except.error LoadExc.jsonDecodeError :=
  c8_reload_failure_stops_loop ConfigSource.unparsable ⟨⟨60, []⟩, 0⟩ 7
    LoadExc.jsonDecodeError (by rfl)
